import Mathlib

/-!
Shallow embedding of `src/transaction_builder.js` (a Bitcoin-style transaction
builder / signer / signature extractor).  Collaborator modules (`scripts`,
`Script`, `Transaction`, `ECPubKey`, `ECSignature`) are out of scope per the
specification (§6); they are modelled as an abstract record of functions
(`Collab`) plus minimal structural data types, with the container operations
of `Transaction` (add/append/set-script) modelled from the spec contract.

JavaScript specifics that the source relies on are embedded explicitly:
sparse arrays (holes vs `undefined` values vs present entries, `every`/`forEach`
skipping holes but not `undefined`), `assert` throwing on the first violated
check (modelled with `Except`, the error carrying the state at throw time so
that atomicity claims are expressible), and `x || default` falsy coalescing.
-/

set_option autoImplicit false

namespace TxB

/-- Byte strings (Buffers) are lists of naturals. -/
abbrev Bytes := List Nat

/-- Public keys are opaque to the builder; only equality on them is used
(`privKey.pub.Q.equals(pubKey.Q)`). -/
abbrev PubKey := Nat

/-- Raw (DER-decoded) signature values, opaque to the builder. -/
abbrev Sig := Nat

/-- A private key exposes its public key; signing itself is a collaborator
function (`Collab.keySign`). -/
structure PrivKey where
  pub : PubKey
  sk : Nat
deriving DecidableEq, Repr

/-- A script chunk is either an opcode or a data push (Buffer). -/
inductive Chunk where
  | op (n : Nat)
  | buf (b : Bytes)
deriving DecidableEq, Repr

/-- A script: an ordered chunk sequence plus its serialized byte form
(the source reads `script.chunks` and `script.buffer.length`). -/
structure Script where
  chunks : List Chunk
  buffer : Bytes
deriving DecidableEq, Repr

/-- The empty script attached to freshly added inputs. -/
def emptyScript : Script := ⟨[], []⟩

/-- A transaction input: previous-output hash, previous-output index,
sequence number, unlocking script. -/
structure TxIn where
  hash : Bytes
  index : Nat
  sequence : Nat
  script : Script
deriving DecidableEq, Repr

/-- A transaction output: locking script and value. -/
structure TxOut where
  script : Script
  value : Nat
deriving DecidableEq, Repr

/-- The transaction container collaborator: ordered input/output storage. -/
structure Transaction where
  ins : List TxIn
  outs : List TxOut
deriving DecidableEq, Repr

/-- Modelled from the spec: the Transaction collaborator's `addInput`
appends an input carrying an empty script and returns the new index. -/
def Transaction.addIn (tx : Transaction) (hash : Bytes) (index sequence : Nat) :
    Nat × Transaction :=
  (tx.ins.length, { tx with ins := tx.ins ++ [⟨hash, index, sequence, emptyScript⟩] })

/-- Modelled from the spec: the Transaction collaborator's `addOutput`
appends an output and returns the new index. -/
def Transaction.addOut (tx : Transaction) (script : Script) (value : Nat) :
    Nat × Transaction :=
  (tx.outs.length, { tx with outs := tx.outs ++ [⟨script, value⟩] })

/-- In-place unlocking-script installation (`tx.setInputScript`). -/
def setScriptAt : List TxIn → Nat → Script → List TxIn
  | [], _, _ => []
  | txIn :: rest, 0, s => { txIn with script := s } :: rest
  | txIn :: rest, Nat.succ n, s => txIn :: setScriptAt rest n s

def Transaction.setInScript (tx : Transaction) (i : Nat) (s : Script) : Transaction :=
  { tx with ins := setScriptAt tx.ins i s }

/-- The closed set of script kinds used by the classifier collaborator
(JS string tags). -/
inductive ScriptType where
  | pubkeyhash
  | pubkey
  | multisig
  | scripthash
  | nonstandard
deriving DecidableEq, Repr

/-- The JS string tag of a script kind (used in error messages). -/
def ScriptType.str : ScriptType → String
  | .pubkeyhash => "pubkeyhash"
  | .pubkey => "pubkey"
  | .multisig => "multisig"
  | .scripthash => "scripthash"
  | .nonstandard => "nonstandard"

def SIGHASH_ALL : Nat := 1
def SIGHASH_SINGLE : Nat := 3
def SIGHASH_ANYONECANPAY : Nat := 0x80

/-- The bundle of collaborator functions consumed by the builder (spec §6):
classifier, signature-hash oracle, signature codec, key codec, script
assemblers and script parsing.  The builder is parametric in these. -/
structure Collab where
  classifyInput : Script → ScriptType
  classifyOutput : Script → ScriptType
  hashForSignature : Transaction → Nat → Script → Nat → Bytes
  txGetHash : Transaction → Bytes
  getHash : Script → Bytes
  scriptHashOutput : Bytes → Script
  addressOutputScript : PubKey → Script
  pubKeyFromBuffer : Chunk → PubKey
  parseScriptSignature : Chunk → Option (Sig × Nat)
  toScriptSignature : Sig → Nat → Chunk
  pubKeyHashInput : Chunk → PubKey → Script
  pubKeyInput : Chunk → Script
  multisigInput : List Chunk → Option Script → Script
  scriptHashInput : Script → Script → Script
  scriptFromBuffer : Chunk → Script
  scriptFromChunks : List Chunk → Script
  keySign : PrivKey → Bytes → Sig

/-- Per-input signing metadata (spec §3). `signatures` is positionally
aligned with `pubKeys`; `none` is an unwritten (hole/absent) slot. -/
structure InputMeta where
  hashType : Nat
  pubKeys : List PubKey
  redeemScript : Option Script
  scriptType : ScriptType
  signatures : List (Option Sig)
deriving DecidableEq, Repr

/-- One slot of the JS `this.signatures` array: an array hole (skipped by
`every`/`forEach`), a present `undefined` (produced by `fromTransaction`'s
`map` for empty-script inputs), or a signing-metadata entry. -/
inductive SigSlot where
  | hole
  | undef
  | entry (m : InputMeta)
deriving DecidableEq, Repr

/-- JS sparse-array write `arr[i] = v`: pads with `pad` up to index `i`
when `i` is beyond the current length. -/
def setPad {α : Type} (l : List α) (i : Nat) (v : α) (pad : α) : List α :=
  if i < l.length then l.set i v
  else l ++ List.replicate (i - l.length) pad ++ [v]

/-- Last-write-wins map for the JS objects `prevOutScripts` / `prevOutTypes`
keyed by input index (a write prepends). -/
def mapSet {α : Type} (m : List (Nat × α)) (i : Nat) (v : α) : List (Nat × α) :=
  (i, v) :: m

/-- Read of a JS object property: absent keys give `undefined` (`none`);
a key may also be present with value `undefined` stored (`(i, none)`). -/
def mapLookup {α : Type} (m : List (Nat × Option α)) (i : Nat) : Option α :=
  match m.find? (fun p => p.1 == i) with
  | some p => p.2
  | none => none

/-- The message modelling the `TypeError` thrown when JS dereferences a
property of `undefined`. -/
def typeErrMsg : String := "TypeError: cannot read property of undefined"

/-- `Array.prototype.every` over the sparse `signatures` array: holes are
skipped, a present `undefined` makes the callback dereference `undefined`
(TypeError), entries are tested. -/
def everySig : List SigSlot → (InputMeta → Bool) → Except String Bool
  | [], _ => .ok true
  | .hole :: rest, p => everySig rest p
  | .undef :: _, _ => .error typeErrMsg
  | .entry m :: rest, p => if p m then everySig rest p else .ok false

/-- Reading `this.signatures[index]`: holes, stored `undefined` and
out-of-range reads all give `undefined` (`none`). -/
def sigAt (l : List SigSlot) (i : Nat) : Option InputMeta :=
  match l.get? i with
  | some (.entry m) => some m
  | _ => none

/-- `input.pubKeys.some(...)` locating the first authorized key equal to
the signing key's public key. -/
def findKeyIdx (pubKeys : List PubKey) (pk : PubKey) : Option Nat :=
  pubKeys.findIdx? (fun q => q == pk)

/-- Truthiness of `input.signatures[i]`: the slot is filled iff it holds a
present signature value. -/
def slotFilled (sigs : List (Option Sig)) (i : Nat) : Bool :=
  match sigs.get? i with
  | some (some _) => true
  | _ => false

/-- `hashType = hashType || Transaction.SIGHASH_ALL`: both `undefined` and
the falsy `0` coalesce to `SIGHASH_ALL`. -/
def effHashType : Option Nat → Nat
  | none => SIGHASH_ALL
  | some h => if h = 0 then SIGHASH_ALL else h

/-- The guard predicate of `addInput`:
`input.hashType & Transaction.SIGHASH_ANYONECANPAY` is truthy. -/
def anycanpayP (m : InputMeta) : Bool :=
  (m.hashType &&& SIGHASH_ANYONECANPAY) != 0

/-- The guard predicate of `addOutput`:
`(signature.hashType & 0x1f) === Transaction.SIGHASH_SINGLE`. -/
def singleP (m : InputMeta) : Bool :=
  (m.hashType &&& 0x1f) == SIGHASH_SINGLE

/-- The polymorphic first argument of `addInput`: a big-endian hex
transaction id (given decoded to bytes), a raw little-endian hash, or a
full prior transaction. -/
inductive InRef where
  | rawHash (h : Bytes)
  | hexId (idBytes : Bytes)
  | prior (ptx : Transaction)

/-- The builder state: previous-output registry, cached locking scripts and
kinds, the sparse signing-metadata array, and the transaction skeleton. -/
structure TransactionBuilder where
  prevOutMap : List (Bytes × Nat)
  prevOutScripts : List (Nat × Option Script)
  prevOutTypes : List (Nat × Option ScriptType)
  signatures : List SigSlot
  tx : Transaction
deriving DecidableEq, Repr

/-- `new TransactionBuilder()`. -/
def TransactionBuilder.empty : TransactionBuilder :=
  ⟨[], [], [], [], ⟨[], []⟩⟩

/-- Resolution of the polymorphic `prevTx` argument of `addInput`: the hex
id is reversed to the internal little-endian ordering; a prior transaction
supplies its own hash and captured locking script. -/
def resolveRef (C : Collab) (ref : InRef) (index : Nat) (scr : Option Script) :
    Except String (Bytes × Option Script) :=
  match ref with
  | .rawHash h => .ok (h, scr)
  | .hexId bs => .ok (bs.reverse, scr)
  | .prior ptx =>
    match ptx.outs.get? index with
    | none => .error typeErrMsg
    | some o => .ok (C.txGetHash ptx, some o.script)

/-- Classification of a known previous-output locking script in `addInput`;
a `nonstandard` classification is rejected. -/
def classifyPrev (C : Collab) (scr : Option Script) : Except String (Option ScriptType) :=
  match scr with
  | none => .ok none
  | some s =>
    if C.classifyOutput s = .nonstandard then .error "PrevOutScript not supported (nonstandard)"
    else .ok (some (C.classifyOutput s))

/-- `TransactionBuilder.prototype.addInput`.  A thrown `assert` is an
`.error (msg, state-at-throw)`; all checks precede every mutation here, so
the carried state is always the input state. -/
def TransactionBuilder.addInput (C : Collab) (b : TransactionBuilder) (ref : InRef)
    (index : Nat) (sequence : Nat) (prevOutScript : Option Script) :
    Except (String × TransactionBuilder) (Nat × TransactionBuilder) :=
  match resolveRef C ref index prevOutScript with
  | .error msg => .error (msg, b)
  | .ok (prevOutHash, scr) =>
    match classifyPrev C scr with
    | .error msg => .error (msg, b)
    | .ok prevOutType =>
      match everySig b.signatures anycanpayP with
      | .error msg => .error (msg, b)
      | .ok g =>
        if g = false then .error ("No, this would invalidate signatures", b)
        else if (prevOutHash, index) ∈ b.prevOutMap then
          .error ("Transaction is already an input", b)
        else
          let vout := b.tx.ins.length
          .ok (vout, { b with
            tx := (b.tx.addIn prevOutHash index sequence).2,
            prevOutMap := b.prevOutMap ++ [(prevOutHash, index)],
            prevOutScripts := mapSet b.prevOutScripts vout scr,
            prevOutTypes := mapSet b.prevOutTypes vout prevOutType })

/-- `TransactionBuilder.prototype.addOutput`. -/
def TransactionBuilder.addOutput (C : Collab) (b : TransactionBuilder)
    (scriptPubKey : Script) (value : Nat) :
    Except (String × TransactionBuilder) (Nat × TransactionBuilder) :=
  match everySig b.signatures singleP with
  | .error msg => .error (msg, b)
  | .ok g =>
    if g = false then .error ("No, this would invalidate signatures", b)
    else .ok (b.tx.outs.length, { b with tx := (b.tx.addOut scriptPubKey value).2 })

/-- Step 2 of `sign` (lines 228–254): resolve the scriptCode, the
previous-output kind, the expected script kind and the digest, without
touching builder state.  Returns
`(prevOutScript, prevOutType, scriptType, digest)`. -/
def signResolve (C : Collab) (b : TransactionBuilder) (index : Nat) (privKey : PrivKey)
    (rs : Option Script) (hashType : Nat) :
    Except String (Script × ScriptType × ScriptType × Bytes) :=
  match rs with
  | some redeemScript =>
    let prevOutScript := (mapLookup b.prevOutScripts index).getD
      (C.scriptHashOutput (C.getHash redeemScript))
    let prevOutType := (mapLookup b.prevOutTypes index).getD .scripthash
    if prevOutType ≠ .scripthash then .error "PrevOutScript must be P2SH"
    else
      let scriptType := C.classifyOutput redeemScript
      if scriptType = .scripthash then .error "RedeemScript can\x27t be P2SH"
      else if scriptType = .nonstandard then .error "RedeemScript not supported (nonstandard)"
      else .ok (prevOutScript, prevOutType, scriptType,
        C.hashForSignature b.tx index redeemScript hashType)
  | none =>
    let prevOutScript := (mapLookup b.prevOutScripts index).getD
      (C.addressOutputScript privKey.pub)
    let prevOutType := (mapLookup b.prevOutTypes index).getD .pubkeyhash
    if prevOutType = .scripthash then .error "PrevOutScript is P2SH, missing redeemScript"
    else .ok (prevOutScript, prevOutType, prevOutType,
      C.hashForSignature b.tx index prevOutScript hashType)

/-- The authorized public-key set of a freshly created metadata entry:
`redeemScript.chunks.slice(1, -2)` mapped through `ECPubKey.fromBuffer`
for a multisig redeem script, else the signing key's own public key. -/
def freshPubKeys (C : Collab) (rs : Option Script) (scriptType : ScriptType)
    (privKey : PrivKey) : List PubKey :=
  match rs, scriptType with
  | some redeemScript, .multisig =>
    ((redeemScript.chunks.drop 1).dropLast.dropLast).map C.pubKeyFromBuffer
  | _, _ => [privKey.pub]

/-- Steps 4–5 of `sign` on an index that already has a metadata entry
(lines 279–293): consistency checks, then the in-place key-slot search
and write on the stored entry. -/
def signExisting (C : Collab) (b : TransactionBuilder) (index : Nat) (pk : PrivKey)
    (rs : Option Script) (hashType : Nat) (scriptType : ScriptType) (digest : Bytes)
    (input : InputMeta) : Except (String × TransactionBuilder) TransactionBuilder :=
  if scriptType ≠ .multisig then
    .error (scriptType.str ++ " doesn\x27t support multiple signatures", b)
  else if input.hashType ≠ hashType then .error ("Inconsistent hashType", b)
  else if input.redeemScript ≠ rs then .error ("Inconsistent redeemScript", b)
  else
    match findKeyIdx input.pubKeys pk.pub with
    | none => .error ("privateKey cannot sign for this input", b)
    | some i =>
      if slotFilled input.signatures i then .error ("Signature already exists", b)
      else
        let input' := { input with
          signatures := setPad input.signatures i (some (C.keySign pk digest)) none }
        .ok { b with signatures := setPad b.signatures index (.entry input') .hole }

/-- Steps 3 and 5 of `sign` on an index with no metadata entry (lines
257–277 then 285–293): the fresh entry and the cached previous-output
script/kind are committed *before* the key-slot search, exactly as the
source mutates `this` before the `pubKeys.some(...)` assertion. -/
def signFresh (C : Collab) (b : TransactionBuilder) (index : Nat) (pk : PrivKey)
    (rs : Option Script) (hashType : Nat) (scriptType : ScriptType) (digest : Bytes)
    (prevOutScript : Script) (prevOutType : ScriptType) :
    Except (String × TransactionBuilder) TransactionBuilder :=
  let pubKeys := freshPubKeys C rs scriptType pk
  let input : InputMeta := ⟨hashType, pubKeys, rs, scriptType, []⟩
  let bC : TransactionBuilder := { b with
    signatures := setPad b.signatures index (.entry input) .hole,
    prevOutScripts := mapSet b.prevOutScripts index (some prevOutScript),
    prevOutTypes := mapSet b.prevOutTypes index (some prevOutType) }
  match findKeyIdx pubKeys pk.pub with
  | none => .error ("privateKey cannot sign for this input", bC)
  | some i =>
    if slotFilled input.signatures i then .error ("Signature already exists", bC)
    else
      let input' := { input with
        signatures := setPad input.signatures i (some (C.keySign pk digest)) none }
      .ok { bC with signatures := setPad bC.signatures index (.entry input') .hole }

/-- `TransactionBuilder.prototype.sign`.  The carried error state reflects
the JS mutation order: a fresh metadata entry (and the cached script/kind)
is committed *before* the key-slot search, so an authorization failure on a
fresh entry leaves that entry written. -/
def TransactionBuilder.sign (C : Collab) (b : TransactionBuilder) (index : Nat)
    (privKey : PrivKey) (rs : Option Script) (hashTypeArg : Option Nat) :
    Except (String × TransactionBuilder) TransactionBuilder :=
  if b.tx.ins.length < index then
    .error ("No input at index: " ++ toString index, b)
  else
    let hashType := effHashType hashTypeArg
    match signResolve C b index privKey rs hashType with
    | .error msg => .error (msg, b)
    | .ok (prevOutScript, prevOutType, scriptType, digest) =>
      match sigAt b.signatures index with
      | some input => signExisting C b index privKey rs hashType scriptType digest input
      | none => signFresh C b index privKey rs hashType scriptType digest prevOutScript prevOutType

/-- Script-hash wrapping at assembly time: present redeem scripts always
wrap the assembled unlocking script. -/
def wrapRedeem (C : Collab) (rs : Option Script) (s : Script) : Script :=
  match rs with
  | some redeemScript => C.scriptHashInput s redeemScript
  | none => s

/-- Assembly of one input's unlocking script from its metadata
(`__build`'s forEach body).  Missing values handed to a collaborator
(`signatures[0]` / `pubKeys[0]` absent) are modelled as a TypeError. -/
def assembleInput (C : Collab) (allowIncomplete : Bool) (input : InputMeta) :
    Except String Script :=
  let sigChunks := input.signatures.filterMap
    (fun o => o.map (fun s => C.toScriptSignature s input.hashType))
  match input.scriptType with
  | .pubkeyhash =>
    match sigChunks.get? 0, input.pubKeys.get? 0 with
    | some sc, some pk => .ok (wrapRedeem C input.redeemScript (C.pubKeyHashInput sc pk))
    | _, _ => .error typeErrMsg
  | .multisig =>
    .ok (wrapRedeem C input.redeemScript
      (C.multisigInput sigChunks (if allowIncomplete then none else input.redeemScript)))
  | .pubkey =>
    match sigChunks.get? 0 with
    | some sc => .ok (wrapRedeem C input.redeemScript (C.pubKeyInput sc))
    | none => .error typeErrMsg
  | t => .error (t.str ++ " not supported")

/-- `this.signatures.forEach` of `__build`: holes are skipped (the input
keeps its current script), `undefined` entries crash, entries are
assembled and installed. -/
def buildLoop (C : Collab) (allowIncomplete : Bool) :
    List SigSlot → Nat → Transaction → Except String Transaction
  | [], _, tx => .ok tx
  | .hole :: rest, idx, tx => buildLoop C allowIncomplete rest (idx + 1) tx
  | .undef :: _, _, _ => .error typeErrMsg
  | .entry input :: rest, idx, tx =>
    match assembleInput C allowIncomplete input with
    | .error e => .error e
    | .ok scriptSig => buildLoop C allowIncomplete rest (idx + 1) (tx.setInScript idx scriptSig)

/-- `TransactionBuilder.prototype.__build`: strict-mode completeness
checks, then per-input script assembly over a snapshot of the skeleton. -/
def TransactionBuilder.buildShared (C : Collab) (b : TransactionBuilder)
    (allowIncomplete : Bool) : Except String Transaction :=
  if allowIncomplete = false ∧ b.tx.ins.length = 0 then .error "Transaction has no inputs"
  else if allowIncomplete = false ∧ b.tx.outs.length = 0 then .error "Transaction has no outputs"
  else if allowIncomplete = false ∧ b.signatures.length = 0 then
    .error "Transaction has no signatures"
  else if allowIncomplete = false ∧ b.signatures.length ≠ b.tx.ins.length then
    .error "Transaction is missing signatures"
  else buildLoop C allowIncomplete b.signatures 0 b.tx

/-- `TransactionBuilder.prototype.build` (strict). -/
def TransactionBuilder.build (C : Collab) (b : TransactionBuilder) :
    Except String Transaction :=
  b.buildShared C false

/-- `TransactionBuilder.prototype.buildIncomplete` (lenient). -/
def TransactionBuilder.buildIncomplete (C : Collab) (b : TransactionBuilder) :
    Except String Transaction :=
  b.buildShared C true

/-- The P2SH re-classification step of `extractSignature` (lines 27–34):
strip the final push as the redeem script, re-classify the remainder, and
require the redeem script's locking-script kind to match. -/
def reclassify (C : Collab) (scriptSig0 : Script) (scriptType0 : ScriptType) :
    Except String (Option Script × Script × ScriptType) :=
  if scriptType0 = .scripthash then
    match scriptSig0.chunks.getLast? with
    | none => .error typeErrMsg
    | some lastChunk =>
      let redeemScript := C.scriptFromBuffer lastChunk
      let scriptSig := C.scriptFromChunks scriptSig0.chunks.dropLast
      let scriptType := C.classifyInput scriptSig
      if C.classifyOutput redeemScript ≠ scriptType then
        .error "Non-matching scriptSig and scriptPubKey in input"
      else .ok (some redeemScript, scriptSig, scriptType)
  else .ok (none, scriptSig0, scriptType0)

/-- `chunks.slice(1).map(ECSignature.parseScriptSignature)`: the first
parse failure aborts. -/
def traverseParse (C : Collab) : List Chunk → Except String (List (Sig × Nat))
  | [] => .ok []
  | c :: rest =>
    match C.parseScriptSignature c with
    | none => .error "invalid script signature"
    | some p => (traverseParse C rest).map (fun l => p :: l)

/-- The per-kind extraction switch of `extractSignature` (lines 39–73). -/
def extractByType (C : Collab) (rs : Option Script) (scriptSig : Script)
    (scriptType : ScriptType) : Except String InputMeta :=
  match scriptType with
  | .pubkeyhash =>
    match scriptSig.chunks.get? 0 with
    | none => .error typeErrMsg
    | some c0 =>
      match C.parseScriptSignature c0 with
      | none => .error "invalid script signature"
      | some (sig, ht) =>
        match scriptSig.chunks.get? 1 with
        | none => .error typeErrMsg
        | some c1 => .ok ⟨ht, [C.pubKeyFromBuffer c1], rs, scriptType, [some sig]⟩
  | .pubkey =>
    match scriptSig.chunks.get? 0 with
    | none => .error typeErrMsg
    | some c0 =>
      match C.parseScriptSignature c0 with
      | none => .error "invalid script signature"
      | some (sig, ht) =>
        match rs with
        | some redeemScript =>
          match redeemScript.chunks.get? 0 with
          | none => .error typeErrMsg
          | some rc => .ok ⟨ht, [C.pubKeyFromBuffer rc], rs, scriptType, [some sig]⟩
        | none => .ok ⟨ht, [], rs, scriptType, [some sig]⟩
  | .multisig =>
    match traverseParse C (scriptSig.chunks.drop 1) with
    | .error e => .error e
    | .ok parsed =>
      match parsed.get? 0 with
      | none => .error typeErrMsg
      | some p0 =>
        let pubKeys := match rs with
          | some redeemScript =>
            ((redeemScript.chunks.drop 1).dropLast.dropLast).map C.pubKeyFromBuffer
          | none => []
        .ok ⟨p0.2, pubKeys, rs, scriptType, parsed.map (fun p => some p.1)⟩
  | t => .error (t.str ++ " inputs not supported")

/-- `extractSignature(txIn)` (lines 18–82): coinbase rejection, optional
P2SH stripping, per-kind extraction. -/
def extractSignature (C : Collab) (txIn : TxIn) : Except String InputMeta :=
  if txIn.hash.all (fun x => x = 0) then .error "coinbase inputs not supported"
  else
    match reclassify C txIn.script (C.classifyInput txIn.script) with
    | .error e => .error e
    | .ok (rs, scriptSig, scriptType) => extractByType C rs scriptSig scriptType

/-- The input-replay loop of `fromTransaction`. -/
def addInputs (C : Collab) : List TxIn → TransactionBuilder →
    Except String TransactionBuilder
  | [], b => .ok b
  | txIn :: rest, b =>
    match TransactionBuilder.addInput C b (.rawHash txIn.hash) txIn.index txIn.sequence none with
    | .error e => .error e.1
    | .ok (_, b') => addInputs C rest b'

/-- The output-replay loop of `fromTransaction`. -/
def addOutputs (C : Collab) : List TxOut → TransactionBuilder →
    Except String TransactionBuilder
  | [], b => .ok b
  | txOut :: rest, b =>
    match TransactionBuilder.addOutput C b txOut.script txOut.value with
    | .error e => .error e.1
    | .ok (_, b') => addOutputs C rest b'

/-- `transaction.ins.map(...)` of `fromTransaction`: per input, reject
coinbase, store a dense `undefined` for an empty script, otherwise extract. -/
def extractAll (C : Collab) : List TxIn → Except String (List SigSlot)
  | [] => .ok []
  | txIn :: rest =>
    if txIn.hash.all (fun x => x = 0) then .error "coinbase inputs not supported"
    else if txIn.script.buffer.length = 0 then
      (extractAll C rest).map (fun l => .undef :: l)
    else
      match extractSignature C txIn with
      | .error e => .error e
      | .ok m => (extractAll C rest).map (fun l => .entry m :: l)

/-- `TransactionBuilder.fromTransaction`. -/
def TransactionBuilder.fromTransaction (C : Collab) (tx : Transaction) :
    Except String TransactionBuilder :=
  match addInputs C tx.ins TransactionBuilder.empty with
  | .error e => .error e
  | .ok b1 =>
    match addOutputs C tx.outs b1 with
    | .error e => .error e
    | .ok b2 =>
      match extractAll C tx.ins with
      | .error e => .error e
      | .ok slots => .ok { b2 with signatures := slots }

/-! ### A concrete collaborator instance

Used to evaluate the embedded operations on concrete inputs (witnesses and
counterexamples).  The encodings are arbitrary but consistent: a signature
chunk is `.buf [sig, hashType]`, a public-key chunk is `.buf [k]`, a
multisig redeem script is tagged `.op 3`, a script-hash locking script is
tagged `.op 1`, a pay-to-pubkey-hash locking script is tagged `.op 2`. -/

/-- A pay-to-pubkey-hash locking script for key `k` (tag `.op 2`). -/
def pkhLock (k : PubKey) : Script := ⟨[.op 2, .buf [k]], [2, k]⟩

/-- A 2-of-2 multisig redeem script over keys 1 and 2 (tag `.op 3`);
`chunks.slice(1, -2)` recovers exactly the two key pushes. -/
def redeemMS : Script := ⟨[.op 3, .buf [1], .buf [2], .op 2, .op 174], [3]⟩

def testClassifyOutput (s : Script) : ScriptType :=
  match s.chunks with
  | .op 1 :: _ => .scripthash
  | [.op 2, .buf [_]] => .pubkeyhash
  | .op 3 :: _ => .multisig
  | _ => .nonstandard

def testClassifyInput (s : Script) : ScriptType :=
  match s.chunks with
  | [.buf [_, _], .buf [_]] => .pubkeyhash
  | [.buf [_, _]] => .pubkey
  | .op 0 :: rest =>
    match rest.getLast? with
    | some (.buf [3]) => .scripthash
    | some (.buf [4]) => .scripthash
    | _ => .multisig
  | _ => .nonstandard

def testScriptFromBuffer : Chunk → Script
  | .buf [3] => redeemMS
  | .buf [4] => pkhLock 9
  | .buf b => ⟨[], b⟩
  | .op n => ⟨[], [n]⟩

def testC : Collab where
  classifyInput := testClassifyInput
  classifyOutput := testClassifyOutput
  hashForSignature := fun tx i s ht => [tx.ins.length, tx.outs.length, i, ht] ++ s.buffer
  txGetHash := fun tx => [tx.ins.length + 1]
  getHash := fun s => s.buffer
  scriptHashOutput := fun h => ⟨[.op 1, .buf h], 1 :: h⟩
  addressOutputScript := fun k => pkhLock k
  pubKeyFromBuffer := fun c => match c with | .buf [k] => k | _ => 0
  parseScriptSignature := fun c => match c with | .buf [s, ht] => some (s, ht) | _ => none
  toScriptSignature := fun s ht => .buf [s, ht]
  pubKeyHashInput := fun sc pk => ⟨[sc, .buf [pk]], [10]⟩
  pubKeyInput := fun sc => ⟨[sc], [11]⟩
  multisigInput := fun scs rs =>
    ⟨.op 0 :: scs ++ (match rs with | some r => [.buf r.buffer] | none => []), [12]⟩
  scriptHashInput := fun s r => ⟨s.chunks ++ [.buf r.buffer], [13]⟩
  scriptFromBuffer := testScriptFromBuffer
  scriptFromChunks := fun cs => ⟨cs, [7]⟩
  keySign := fun pk d => pk.sk * 1000 + d.foldr (fun a acc => a + acc) 0

/-- The sign/build/extract round-trip scenario of spec §8 (scenario 1):
one pay-to-pubkey-hash input, one output, one `sign` call with the owning
key, `build()`, then the Signature Extractor on the built input.  Returns
the extracted metadata. -/
def p2pkhRound (C : Collab) (k : PrivKey) (h : Bytes) (pIdx seq : Nat)
    (p outS : Script) (v : Nat) : Except String InputMeta :=
  match TransactionBuilder.addInput C TransactionBuilder.empty (.rawHash h) pIdx seq (some p) with
  | .error e => .error e.1
  | .ok (_, b1) =>
    match TransactionBuilder.addOutput C b1 outS v with
    | .error e => .error e.1
    | .ok (_, b2) =>
      match TransactionBuilder.sign C b2 0 k none none with
      | .error e => .error e.1
      | .ok b3 =>
        match TransactionBuilder.build C b3 with
        | .error e => .error e
        | .ok tx =>
          match tx.ins.get? 0 with
          | none => .error "no input"
          | some txIn => extractSignature C txIn

/-- Whether a computation succeeded. -/
def exIsOk {ε α : Type} : Except ε α → Bool
  | .ok _ => true
  | .error _ => false

/-! ### Concrete sample states for witnesses and counterexamples -/

/-- A key whose public key is 1. -/
def key1 : PrivKey := ⟨1, 10⟩

/-- A key whose public key is 5 — not among `redeemMS`'s keys `[1, 2]`. -/
def key5 : PrivKey := ⟨5, 50⟩

/-- A builder holding one input whose previous output `([1], 0)` is
already recorded in the registry. -/
def sampleDup : TransactionBuilder :=
  ⟨[([1], 0)], [(0, none)], [(0, none)], [], ⟨[⟨[1], 0, 0, emptyScript⟩], []⟩⟩

/-- A metadata entry with hash type `SIGHASH_SINGLE = 3`: it lacks
`SIGHASH_ANYONECANPAY` (so further inputs are refused) while its low five
bits *are* `SIGHASH_SINGLE` (so further outputs stay allowed). -/
def sampleMetaSingle : InputMeta := ⟨3, [1], none, .pubkeyhash, [some 5]⟩

/-- A builder carrying `sampleMetaSingle` as its only metadata entry. -/
def sampleGuardedIn : TransactionBuilder :=
  ⟨[([1], 0)], [(0, some (pkhLock 1))], [(0, some .pubkeyhash)], [.entry sampleMetaSingle],
    ⟨[⟨[1], 0, 0, emptyScript⟩], [⟨pkhLock 2, 5⟩]⟩⟩

/-- A metadata entry with hash type `SIGHASH_ALL | SIGHASH_ANYONECANPAY =
0x81`: further inputs stay allowed while further outputs are refused. -/
def sampleMetaAcp : InputMeta := ⟨0x81, [1], none, .pubkeyhash, [some 5]⟩

/-- A builder carrying `sampleMetaAcp` as its only metadata entry. -/
def sampleGuardedOut : TransactionBuilder :=
  ⟨[([1], 0)], [(0, some (pkhLock 1))], [(0, some .pubkeyhash)], [.entry sampleMetaAcp],
    ⟨[⟨[1], 0, 0, emptyScript⟩], [⟨pkhLock 2, 5⟩]⟩⟩

/-- A multisig metadata entry over keys `[1, 2]` (redeem script
`redeemMS`), key 1's slot already filled. -/
def sampleMetaMS : InputMeta := ⟨1, [1, 2], some redeemMS, .multisig, [some 42]⟩

/-- A builder carrying `sampleMetaMS` at input 0, the cached
previous-output kind being `scripthash`. -/
def sampleMS : TransactionBuilder :=
  ⟨[([1], 0)], [(0, some ⟨[.op 1, .buf [3]], [1, 3]⟩)], [(0, some .scripthash)],
    [.entry sampleMetaMS], ⟨[⟨[1], 0, 0, emptyScript⟩], []⟩⟩

/-- A one-input transaction whose input carries an empty unlocking script
(and a non-zero previous-output hash). -/
def sampleEmptyInTx : Transaction := ⟨[⟨[1], 0, 0, emptyScript⟩], []⟩

/-- The builder produced by importing `sampleEmptyInTx`:
the metadata table holds a stored `undefined` at index 0. -/
def sampleImported : TransactionBuilder :=
  ⟨[([1], 0)], [(0, none)], [(0, none)], [.undef], ⟨[⟨[1], 0, 0, emptyScript⟩], []⟩⟩

/-- A builder with one input and one output and no signing metadata. -/
def sampleUnsigned : TransactionBuilder :=
  ⟨[([1], 0)], [(0, none)], [(0, none)], [], ⟨[⟨[1], 0, 0, emptyScript⟩], [⟨pkhLock 2, 5⟩]⟩⟩

/-- The signing-metadata entry count of the state carried by a failed
`sign` call (`none` if the call succeeded). -/
def errStateSigCount : Except (String × TransactionBuilder) TransactionBuilder → Option Nat
  | .error (_, b) => some b.signatures.length
  | .ok _ => none

/-! ## Theorems -/

theorem exIsOk_map {ε α β : Type} (f : α → β) (e : Except ε α) :
    exIsOk (e.map f) = exIsOk e := by
  cases e <;> rfl

theorem extractAll_coinbase_err (C : Collab) (l : List TxIn)
    (h : ∃ t ∈ l, t.hash.all (fun x => x = 0) = true) :
    exIsOk (extractAll C l) = false := by
  induction l with
  | nil => simp at h
  | cons a rest ih =>
    obtain ⟨t, ht, hcb⟩ := h
    rcases List.mem_cons.mp ht with rfl | htl
    · unfold extractAll; simp [hcb, exIsOk]
    · have hrest := ih ⟨t, htl, hcb⟩
      unfold extractAll
      by_cases ha : a.hash.all (fun x => x = 0) = true
      · simp [ha, exIsOk]
      · simp only [ha, if_false]
        by_cases hb : a.script.buffer.length = 0
        · simpa [hb, exIsOk_map] using hrest
        · simp only [hb, if_false]
          cases hex : extractSignature C a with
          | error e => simp [exIsOk]
          | ok m => simpa [exIsOk_map] using hrest

/-- Claim C2 (amended): the import paths reject all-zero previous-output
hashes — `extractSignature` fails immediately and `fromTransaction` fails
as a whole — while `addInput` itself performs no coinbase check and
accepts an all-zero hash (here: with no cached locking script, no recorded
signatures and an unused (hash, index) pair, it succeeds). -/
theorem C2_thm :
    (∀ (C : Collab) (txIn : TxIn), txIn.hash.all (fun x => x = 0) = true →
      extractSignature C txIn = .error "coinbase inputs not supported")
    ∧ (∀ (C : Collab) (tx : Transaction),
      (∃ t ∈ tx.ins, t.hash.all (fun x => x = 0) = true) →
      exIsOk (TransactionBuilder.fromTransaction C tx) = false)
    ∧ (∀ (C : Collab) (b : TransactionBuilder) (h : Bytes) (idx seq : Nat),
      h.all (fun x => x = 0) = true → b.signatures = [] → (h, idx) ∉ b.prevOutMap →
      exIsOk (TransactionBuilder.addInput C b (.rawHash h) idx seq none) = true) := by
  refine ⟨?_, ?_, ?_⟩
  · intro C txIn hcb
    unfold extractSignature
    simp [hcb]
  · intro C tx hcb
    unfold TransactionBuilder.fromTransaction
    cases h1 : addInputs C tx.ins TransactionBuilder.empty with
    | error e => simp [exIsOk]
    | ok b1 =>
      cases h2 : addOutputs C tx.outs b1 with
      | error e => simp [h2, exIsOk]
      | ok b2 =>
        have h3 := extractAll_coinbase_err C tx.ins hcb
        cases h4 : extractAll C tx.ins with
        | error e => simp [h2, h4, exIsOk]
        | ok slots => rw [h4] at h3; simp [exIsOk] at h3
  · intro C b h idx seq _ hsig hmem
    unfold TransactionBuilder.addInput
    simp [resolveRef, classifyPrev, hsig, everySig, hmem, exIsOk]

/-- Claim C2 counterexample: the claim states that `addInput` rejects an
all-zero previous-output hash; on a fresh builder the call succeeds. -/
theorem C2_cex :
    exIsOk (TransactionBuilder.addInput testC TransactionBuilder.empty
      (.rawHash (List.replicate 32 0)) 0 0 none) = true
    ∧ (List.replicate 32 0).all (fun x => x = 0) = true := by
  exact ⟨rfl, by decide⟩

/-- Claim C2 witness: the amended theorem evaluated at concrete inputs. -/
theorem C2_wit :
    extractSignature testC ⟨[0, 0, 0], 0, 0, emptyScript⟩ = .error "coinbase inputs not supported"
    ∧ exIsOk (TransactionBuilder.fromTransaction testC ⟨[⟨[0, 0, 0], 0, 0, emptyScript⟩], []⟩) = false
    ∧ exIsOk (TransactionBuilder.addInput testC TransactionBuilder.empty
        (.rawHash [0, 0]) 1 0 none) = true :=
  ⟨C2_thm.1 testC ⟨[0, 0, 0], 0, 0, emptyScript⟩ (by decide),
   C2_thm.2.1 testC ⟨[⟨[0, 0, 0], 0, 0, emptyScript⟩], []⟩
     ⟨⟨[0, 0, 0], 0, 0, emptyScript⟩, by decide, by decide⟩,
   C2_thm.2.2 testC TransactionBuilder.empty [0, 0] 1 0 (by decide) rfl (by decide)⟩

/-- Claim C6 (amended): `sign` fails with the Precondition error
`'No input at index'` precisely on indices *strictly greater* than the
input count — the source asserts `this.tx.ins.length >= index`, so the
first out-of-bounds index `index = ins.length` passes the bounds check. -/
theorem C6_thm (C : Collab) (b : TransactionBuilder) (index : Nat) (pk : PrivKey)
    (rs : Option Script) (ht : Option Nat) (h : b.tx.ins.length < index) :
    TransactionBuilder.sign C b index pk rs ht =
      .error ("No input at index: " ++ toString index, b) := by
  unfold TransactionBuilder.sign
  simp [h]

/-- Claim C6 counterexample: on an empty builder (zero inputs) the index 0
is out of bounds, yet `sign(0, key)` does not fail with the Precondition
error — it runs every later step and even succeeds. -/
theorem C6_cex :
    exIsOk (TransactionBuilder.sign testC TransactionBuilder.empty 0 key1 none none) = true
    ∧ TransactionBuilder.empty.tx.ins.length = 0 :=
  ⟨rfl, rfl⟩

/-- Claim C6 witness: the amended theorem at index 3 on an empty builder. -/
theorem C6_wit :
    TransactionBuilder.sign testC TransactionBuilder.empty 3 key1 none none =
      .error ("No input at index: " ++ toString 3, TransactionBuilder.empty) :=
  C6_thm testC TransactionBuilder.empty 3 key1 none none (by decide)

/-- Claim C9: re-adding an already recorded previous-output pair
`(hash, index)` makes `addInput` fail with the StateConflict error
`'Transaction is already an input'`, the carried state being exactly the
pre-call builder (no mutation).  The hypotheses put the call on the path
that reaches the registry check: the locking-script argument (if any)
classifies as standard and the hash-type guard over the recorded
signatures evaluates to `true`. -/
theorem C9_thm (C : Collab) (b : TransactionBuilder) (h : Bytes) (idx seq : Nat)
    (scr : Option Script)
    (hMem : (h, idx) ∈ b.prevOutMap)
    (hCl : exIsOk (classifyPrev C scr) = true)
    (hG : everySig b.signatures anycanpayP = .ok true) :
    TransactionBuilder.addInput C b (.rawHash h) idx seq scr =
      .error ("Transaction is already an input", b) := by
  unfold TransactionBuilder.addInput
  cases hc : classifyPrev C scr with
  | error e => rw [hc] at hCl; simp [exIsOk] at hCl
  | ok t => simp [resolveRef, hc, hG, hMem]

/-- Claim C9 witness: re-adding `([1], 0)` on `sampleDup` fails and leaves
the builder unchanged. -/
theorem C9_wit :
    TransactionBuilder.addInput testC sampleDup (.rawHash [1]) 0 0 none =
      .error ("Transaction is already an input", sampleDup) :=
  C9_thm testC sampleDup [1] 0 0 none (by decide) rfl rfl

theorem everySig_false_of (l : List SigSlot) (p : InputMeta → Bool)
    (hU : ∀ s ∈ l, s ≠ SigSlot.undef)
    (hEx : ∃ m, SigSlot.entry m ∈ l ∧ p m = false) :
    everySig l p = .ok false := by
  induction l with
  | nil => obtain ⟨m, hm, _⟩ := hEx; simp at hm
  | cons a rest ih =>
    obtain ⟨m, hm, hpm⟩ := hEx
    cases a with
    | hole =>
      have hrest : SigSlot.entry m ∈ rest := by
        rcases List.mem_cons.mp hm with hh | hh
        · exact absurd hh (by simp)
        · exact hh
      exact ih (fun s hs => hU s (List.mem_cons_of_mem _ hs)) ⟨m, hrest, hpm⟩
    | undef => exact absurd rfl (hU .undef (List.mem_cons_self _ _))
    | entry m0 =>
      by_cases hp : p m0 = true
      · have hrest : SigSlot.entry m ∈ rest := by
          rcases List.mem_cons.mp hm with hh | hh
          · have hmm : m = m0 := by injection hh
            rw [hmm, hp] at hpm; cases hpm
          · exact hh
        have := ih (fun s hs => hU s (List.mem_cons_of_mem _ hs)) ⟨m, hrest, hpm⟩
        simpa [everySig, hp] using this
      · simp [everySig, hp]

/-- Claim C4: two independent mutation guards.  Once any recorded
signing-metadata entry carries a hash type lacking the ANYONECANPAY flag,
every later `addInput` fails — and, when the call otherwise reaches the
guard (raw hash, no locking-script argument), with exactly the
StateConflict message and an unchanged state.  Independently, once any
entry carries a hash type whose low five bits are not SIGHASH_SINGLE,
every later `addOutput` fails the same way.  Each implication needs only
its own antecedent, covering the asymmetric states (e.g. a lone
SIGHASH_SINGLE entry refuses inputs while still permitting outputs).
The metadata table is assumed to hold no stored `undefined` (that
degenerate import case is claim C10). -/
theorem C4_thm (C : Collab) (b : TransactionBuilder)
    (hU : ∀ s ∈ b.signatures, s ≠ SigSlot.undef) :
    ((∃ m, SigSlot.entry m ∈ b.signatures ∧ m.hashType &&& SIGHASH_ANYONECANPAY = 0) →
      (∀ (ref : InRef) (index seq : Nat) (scr : Option Script),
        exIsOk (TransactionBuilder.addInput C b ref index seq scr) = false)
      ∧ (∀ (h : Bytes) (index seq : Nat),
        TransactionBuilder.addInput C b (.rawHash h) index seq none =
          .error ("No, this would invalidate signatures", b)))
    ∧ ((∃ m, SigSlot.entry m ∈ b.signatures ∧ (m.hashType &&& 0x1f) ≠ SIGHASH_SINGLE) →
      ∀ (s : Script) (v : Nat),
        TransactionBuilder.addOutput C b s v =
          .error ("No, this would invalidate signatures", b)) := by
  constructor
  · intro hIn
    obtain ⟨mi, hmi, hti⟩ := hIn
    have hGi : everySig b.signatures anycanpayP = .ok false :=
      everySig_false_of _ _ hU ⟨mi, hmi, by simp [anycanpayP, hti]⟩
    constructor
    · intro ref index seq scr
      unfold TransactionBuilder.addInput
      cases hr : resolveRef C ref index scr with
      | error e => simp [exIsOk]
      | ok pr =>
        cases hc : classifyPrev C pr.2 with
        | error e => simp [hc, exIsOk]
        | ok t => simp [hc, hGi, exIsOk]
    · intro h index seq
      unfold TransactionBuilder.addInput
      simp [resolveRef, classifyPrev, hGi]
  · intro hOut
    obtain ⟨mo, hmo, hto⟩ := hOut
    have hGo : everySig b.signatures singleP = .ok false :=
      everySig_false_of _ _ hU ⟨mo, hmo, by simp [singleP, hto]⟩
    intro s v
    unfold TransactionBuilder.addOutput
    simp [hGo]

/-- Claim C4 witness, exercising the two asymmetric guard states: on
`sampleGuardedIn` (lone entry with hash type `SIGHASH_SINGLE = 3`, which
lacks ANYONECANPAY) `addInput` fails with the StateConflict message and
an unchanged state, and on `sampleGuardedOut` (lone entry with hash type
`0x81 = ALL | ANYONECANPAY`, whose low bits are not SIGHASH_SINGLE)
`addOutput` fails the same way. -/
theorem C4_wit :
    TransactionBuilder.addInput testC sampleGuardedIn (.rawHash [2]) 0 0 none =
      .error ("No, this would invalidate signatures", sampleGuardedIn)
    ∧ TransactionBuilder.addOutput testC sampleGuardedOut (pkhLock 3) 7 =
      .error ("No, this would invalidate signatures", sampleGuardedOut) :=
  ⟨((C4_thm testC sampleGuardedIn (by decide)).1
      ⟨sampleMetaSingle, by decide, by decide⟩).2 [2] 0 0,
   (C4_thm testC sampleGuardedOut (by decide)).2
      ⟨sampleMetaAcp, by decide, by decide⟩ (pkhLock 3) 7⟩

/-- Claim C8: strict `build()` fails with one of the four Incomplete
messages whenever the builder has zero inputs, zero outputs, zero
metadata-array length, or a metadata-array length different from the
input count; `buildIncomplete()` performs none of these checks: with an
empty metadata array it succeeds and returns the skeleton unchanged, so
inputs that carry empty unlocking scripts stay empty. -/
theorem C8_thm (C : Collab) (b : TransactionBuilder) :
    ((b.tx.ins.length = 0 ∨ b.tx.outs.length = 0 ∨ b.signatures.length = 0
        ∨ b.signatures.length ≠ b.tx.ins.length) →
      ∃ msg, TransactionBuilder.build C b = .error msg ∧
        msg ∈ ["Transaction has no inputs", "Transaction has no outputs",
               "Transaction has no signatures", "Transaction is missing signatures"])
    ∧ (b.signatures = [] →
      TransactionBuilder.buildIncomplete C b = .ok b.tx
      ∧ ((∀ t ∈ b.tx.ins, t.script = emptyScript) →
        ∃ tx, TransactionBuilder.buildIncomplete C b = .ok tx
          ∧ ∀ t ∈ tx.ins, t.script = emptyScript)) := by
  constructor
  · intro hpre
    by_cases h1 : b.tx.ins.length = 0
    · exact ⟨"Transaction has no inputs",
        by simp [TransactionBuilder.build, TransactionBuilder.buildShared, h1], by simp⟩
    by_cases h2 : b.tx.outs.length = 0
    · exact ⟨"Transaction has no outputs",
        by simp [TransactionBuilder.build, TransactionBuilder.buildShared, h1, h2], by simp⟩
    by_cases h3 : b.signatures.length = 0
    · exact ⟨"Transaction has no signatures",
        by simp [TransactionBuilder.build, TransactionBuilder.buildShared, h1, h2, h3], by simp⟩
    have h4 : b.signatures.length ≠ b.tx.ins.length := by
      rcases hpre with h | h | h | h
      · exact absurd h h1
      · exact absurd h h2
      · exact absurd h h3
      · exact h
    exact ⟨"Transaction is missing signatures",
      by simp [TransactionBuilder.build, TransactionBuilder.buildShared, h1, h2, h3, h4], by simp⟩
  · intro hsig
    have hok : TransactionBuilder.buildIncomplete C b = .ok b.tx := by
      simp [TransactionBuilder.buildIncomplete, TransactionBuilder.buildShared, hsig, buildLoop]
    exact ⟨hok, fun hscripts => ⟨b.tx, hok, hscripts⟩⟩

/-- Claim C8 witness: on `sampleUnsigned` (one input, one output, no
metadata) `build()` fails Incomplete while `buildIncomplete()` succeeds
and all built inputs carry empty scripts. -/
theorem C8_wit :
    (∃ msg, TransactionBuilder.build testC sampleUnsigned = .error msg ∧
      msg ∈ ["Transaction has no inputs", "Transaction has no outputs",
             "Transaction has no signatures", "Transaction is missing signatures"])
    ∧ TransactionBuilder.buildIncomplete testC sampleUnsigned = .ok sampleUnsigned.tx :=
  ⟨(C8_thm testC sampleUnsigned).1 (Or.inr (Or.inr (Or.inl rfl))),
   ((C8_thm testC sampleUnsigned).2 rfl).1⟩

theorem extractAll_empty_undef (C : Collab) (l : List TxIn) (slots : List SigSlot)
    (hok : extractAll C l = .ok slots) :
    ∀ i txIn, l.get? i = some txIn → txIn.script.buffer.length = 0 →
      slots.get? i = some SigSlot.undef := by
  induction l generalizing slots with
  | nil => intro i txIn hi _; simp at hi
  | cons a rest ih =>
    intro i txIn hi hempty
    unfold extractAll at hok
    by_cases ha : a.hash.all (fun x => x = 0) = true
    · rw [if_pos ha] at hok; cases hok
    · rw [if_neg ha] at hok
      by_cases hb : a.script.buffer.length = 0
      · rw [if_pos hb] at hok
        cases hrec : extractAll C rest with
        | error e => rw [hrec] at hok; cases hok
        | ok l' =>
          rw [hrec] at hok
          injection hok with hok
          cases i with
          | zero => rw [← hok]; rfl
          | succ j =>
            rw [← hok]
            exact ih l' hrec j txIn (by simpa using hi) hempty
      · rw [if_neg hb] at hok
        cases hex : extractSignature C a with
        | error e => rw [hex] at hok; cases hok
        | ok m =>
          rw [hex] at hok
          cases hrec : extractAll C rest with
          | error e => rw [hrec] at hok; cases hok
          | ok l' =>
            rw [hrec] at hok
            injection hok with hok
            cases i with
            | zero =>
              have : txIn = a := by simpa using hi.symm
              rw [this] at hempty
              exact absurd hempty hb
            | succ j =>
              rw [← hok]
              exact ih l' hrec j txIn (by simpa using hi) hempty

theorem everySig_undef_err (l : List SigSlot) (p : InputMeta → Bool)
    (hAll : ∀ m, SigSlot.entry m ∈ l → p m = true)
    (hU : ∃ i, l.get? i = some SigSlot.undef) :
    everySig l p = .error typeErrMsg := by
  induction l with
  | nil => obtain ⟨i, hi⟩ := hU; simp at hi
  | cons a rest ih =>
    obtain ⟨i, hi⟩ := hU
    cases a with
    | hole =>
      apply ih (fun m hm => hAll m (List.mem_cons_of_mem _ hm))
      cases i with
      | zero => simp at hi
      | succ j => exact ⟨j, hi⟩
    | undef => rfl
    | entry m0 =>
      have hp := hAll m0 (List.mem_cons_self _ _)
      have hrest : everySig rest p = .error typeErrMsg := by
        apply ih (fun m hm => hAll m (List.mem_cons_of_mem _ hm))
        cases i with
        | zero => simp at hi
        | succ j => exact ⟨j, hi⟩
      simpa [everySig, hp] using hrest

theorem fromTransaction_sig (C : Collab) (tx : Transaction) (b : TransactionBuilder)
    (h : TransactionBuilder.fromTransaction C tx = .ok b) :
    ∃ slots, extractAll C tx.ins = .ok slots ∧ b.signatures = slots := by
  unfold TransactionBuilder.fromTransaction at h
  cases h1 : addInputs C tx.ins TransactionBuilder.empty with
  | error e => rw [h1] at h; cases h
  | ok b1 =>
    rw [h1] at h; dsimp only at h
    cases h2 : addOutputs C tx.outs b1 with
    | error e => rw [h2] at h; cases h
    | ok b2 =>
      rw [h2] at h; dsimp only at h
      cases h3 : extractAll C tx.ins with
      | error e => rw [h3] at h; cases h
      | ok slots => rw [h3] at h; injection h with h'; exact ⟨slots, rfl, by rw [← h']⟩

/-- Claim C10: a transaction input with an empty unlocking script makes
`fromTransaction` store a dense `undefined` at that index of the
metadata table; on the imported builder the hash-type guards of
`addInput` and `addOutput` dereference that `undefined`, so both
mutations fail with a TypeError instead of evaluating the documented
flag condition, even though every present entry satisfies both guards. -/
theorem C10_thm (C : Collab) (tx : Transaction) (b : TransactionBuilder) (i : Nat)
    (txIn : TxIn)
    (hFT : TransactionBuilder.fromTransaction C tx = .ok b)
    (hIn : tx.ins.get? i = some txIn)
    (hEmpty : txIn.script.buffer.length = 0)
    (hSat : ∀ m, SigSlot.entry m ∈ b.signatures → anycanpayP m = true ∧ singleP m = true) :
    b.signatures.get? i = some SigSlot.undef
    ∧ (∀ (h : Bytes) (idx seq : Nat),
      TransactionBuilder.addInput C b (.rawHash h) idx seq none = .error (typeErrMsg, b))
    ∧ (∀ (s : Script) (v : Nat),
      TransactionBuilder.addOutput C b s v = .error (typeErrMsg, b)) := by
  obtain ⟨slots, hEx, hSig⟩ := fromTransaction_sig C tx b hFT
  have hUndef : b.signatures.get? i = some SigSlot.undef := by
    rw [hSig]; exact extractAll_empty_undef C tx.ins slots hEx i txIn hIn hEmpty
  have hU : ∃ j, b.signatures.get? j = some SigSlot.undef := ⟨i, hUndef⟩
  have hG1 : everySig b.signatures anycanpayP = .error typeErrMsg :=
    everySig_undef_err _ _ (fun m hm => (hSat m hm).1) hU
  have hG2 : everySig b.signatures singleP = .error typeErrMsg :=
    everySig_undef_err _ _ (fun m hm => (hSat m hm).2) hU
  refine ⟨hUndef, ?_, ?_⟩
  · intro h idx seq
    unfold TransactionBuilder.addInput
    simp [resolveRef, classifyPrev, hG1]
  · intro s v
    unfold TransactionBuilder.addOutput
    simp [hG2]

/-- Claim C10 witness: importing `sampleEmptyInTx` yields
`sampleImported` with a stored `undefined`, and both mutations fail with
the TypeError. -/
theorem C10_wit :
    sampleImported.signatures.get? 0 = some SigSlot.undef
    ∧ TransactionBuilder.addInput testC sampleImported (.rawHash [2]) 0 0 none =
      .error (typeErrMsg, sampleImported)
    ∧ TransactionBuilder.addOutput testC sampleImported (pkhLock 3) 7 =
      .error (typeErrMsg, sampleImported) :=
  ⟨(C10_thm testC sampleEmptyInTx sampleImported 0 ⟨[1], 0, 0, emptyScript⟩ rfl rfl rfl
      (fun m hm => by simp [sampleImported] at hm)).1,
   (C10_thm testC sampleEmptyInTx sampleImported 0 ⟨[1], 0, 0, emptyScript⟩ rfl rfl rfl
      (fun m hm => by simp [sampleImported] at hm)).2.1 [2] 0 0,
   (C10_thm testC sampleEmptyInTx sampleImported 0 ⟨[1], 0, 0, emptyScript⟩ rfl rfl rfl
      (fun m hm => by simp [sampleImported] at hm)).2.2 (pkhLock 3) 7⟩

theorem signExisting_err (C : Collab) (b : TransactionBuilder) (index : Nat) (pk : PrivKey)
    (rs : Option Script) (hashType : Nat) (scriptType : ScriptType) (digest : Bytes)
    (input : InputMeta) (msg : String) (b' : TransactionBuilder)
    (h : signExisting C b index pk rs hashType scriptType digest input = .error (msg, b')) :
    b' = b := by
  unfold signExisting at h
  repeat' split at h
  all_goals
    first
    | (simp only [Except.error.injEq, Prod.mk.injEq] at h; exact h.2.symm)
    | cases h

theorem signFresh_err (C : Collab) (b : TransactionBuilder) (index : Nat) (pk : PrivKey)
    (rs : Option Script) (hashType : Nat) (scriptType : ScriptType) (digest : Bytes)
    (prevOutScript : Script) (prevOutType : ScriptType) (msg : String)
    (b' : TransactionBuilder)
    (h : signFresh C b index pk rs hashType scriptType digest prevOutScript prevOutType =
      .error (msg, b')) :
    msg = "privateKey cannot sign for this input"
    ∧ b'.tx = b.tx ∧ b'.prevOutMap = b.prevOutMap := by
  unfold signFresh at h
  dsimp only at h
  split at h
  · simp only [Except.error.injEq, Prod.mk.injEq] at h
    obtain ⟨hm, hb⟩ := h
    subst hb
    exact ⟨hm.symm, rfl, rfl⟩
  · split at h
    · rename_i hsf
      simp [slotFilled] at hsf
    · cases h

/-- Claim C1 (amended): a failing `sign` call never touches the skeleton
or the previous-output registry, and leaves the whole builder unchanged
on every failure path except one: when no metadata entry existed at the
index and the key-slot search then fails (`privateKey cannot sign for
this input`), the freshly created entry and the cached previous-output
script/kind remain written.  In particular any failure on an index that
already has an entry is fully atomic. -/
theorem C1_thm (C : Collab) (b : TransactionBuilder) (index : Nat) (pk : PrivKey)
    (rs : Option Script) (ht : Option Nat) (msg : String) (b' : TransactionBuilder)
    (h : TransactionBuilder.sign C b index pk rs ht = .error (msg, b')) :
    b'.tx = b.tx ∧ b'.prevOutMap = b.prevOutMap
    ∧ (msg ≠ "privateKey cannot sign for this input" → b' = b)
    ∧ (∀ m, sigAt b.signatures index = some m → b' = b) := by
  unfold TransactionBuilder.sign at h
  split at h
  · simp only [Except.error.injEq, Prod.mk.injEq] at h
    obtain ⟨hm, hb⟩ := h
    subst hb
    exact ⟨rfl, rfl, fun _ => rfl, fun _ _ => rfl⟩
  · dsimp only at h
    cases hres : signResolve C b index pk rs (effHashType ht) with
    | error m0 =>
      rw [hres] at h
      simp only [Except.error.injEq, Prod.mk.injEq] at h
      obtain ⟨hm, hb⟩ := h
      subst hb
      exact ⟨rfl, rfl, fun _ => rfl, fun _ _ => rfl⟩
    | ok q =>
      obtain ⟨pos, pot, st, dg⟩ := q
      rw [hres] at h
      dsimp only at h
      cases hAt : sigAt b.signatures index with
      | some input =>
        rw [hAt] at h
        -- an entry already exists at the index: every failure is atomic
        have hb := signExisting_err _ _ _ _ _ _ _ _ _ _ _ h
        subst hb
        exact ⟨rfl, rfl, fun _ => rfl, fun _ _ => rfl⟩
      | none =>
        rw [hAt] at h
        -- no entry existed: the fresh entry is committed before the search
        obtain ⟨hm, htx, hpm⟩ := signFresh_err _ _ _ _ _ _ _ _ _ _ _ _ h
        exact ⟨htx, hpm, fun hne => absurd hm hne, fun m hm2 => by cases hm2⟩

/-- Claim C1 counterexample: signing a fresh index with a multisig redeem
script and a key outside the authorized set fails, yet the post-failure
state holds one signing-metadata entry where the pre-call state held
none — the failed call mutated the observable state. -/
theorem C1_cex :
    exIsOk (TransactionBuilder.sign testC TransactionBuilder.empty 0 key5
      (some redeemMS) none) = false
    ∧ errStateSigCount (TransactionBuilder.sign testC TransactionBuilder.empty 0 key5
      (some redeemMS) none) = some 1
    ∧ TransactionBuilder.empty.signatures.length = 0 :=
  ⟨rfl, rfl, rfl⟩

/-- Claim C1 witness: the amended theorem at a concrete failing call (an
inconsistent hash type on an existing multisig entry), whose error state
is exactly the pre-call builder. -/
theorem C1_wit :
    sampleMS.tx = sampleMS.tx ∧ sampleMS.prevOutMap = sampleMS.prevOutMap
    ∧ ("Inconsistent hashType" ≠ "privateKey cannot sign for this input" →
      sampleMS = sampleMS)
    ∧ (∀ m, sigAt sampleMS.signatures 0 = some m → sampleMS = sampleMS) :=
  C1_thm testC sampleMS 0 key1 (some redeemMS) (some 2) "Inconsistent hashType" sampleMS rfl

theorem signExisting_ok (C : Collab) (b : TransactionBuilder) (index : Nat) (pk : PrivKey)
    (rs : Option Script) (hashType : Nat) (scriptType : ScriptType) (digest : Bytes)
    (input : InputMeta) (b'' : TransactionBuilder)
    (h : signExisting C b index pk rs hashType scriptType digest input = .ok b'') :
    scriptType = .multisig ∧ input.hashType = hashType ∧ input.redeemScript = rs := by
  unfold signExisting at h
  split at h
  · cases h
  · rename_i h1
    split at h
    · cases h
    · rename_i h2
      split at h
      · cases h
      · rename_i h3
        exact ⟨not_not.mp h1, not_not.mp h2, not_not.mp h3⟩

theorem signResolve_some_ok (C : Collab) (b : TransactionBuilder) (index : Nat)
    (pk : PrivKey) (r : Script) (hashType : Nat) (pos : Script) (pot st : ScriptType)
    (dg : Bytes)
    (h : signResolve C b index pk (some r) hashType = .ok (pos, pot, st, dg)) :
    st = C.classifyOutput r ∧ pot = .scripthash := by
  unfold signResolve at h
  dsimp only at h
  split at h
  · cases h
  · rename_i h1
    split at h
    · cases h
    · split at h
      · cases h
      · simp only [Except.ok.injEq, Prod.mk.injEq] at h
        obtain ⟨_, hpot, hst, _⟩ := h
        exact ⟨hst.symm, hpot ▸ not_not.mp h1⟩

theorem signResolve_none_ok (C : Collab) (b : TransactionBuilder) (index : Nat)
    (pk : PrivKey) (hashType : Nat) (pos : Script) (pot st : ScriptType) (dg : Bytes)
    (h : signResolve C b index pk none hashType = .ok (pos, pot, st, dg)) :
    st = pot ∧ pot = (mapLookup b.prevOutTypes index).getD .pubkeyhash := by
  unfold signResolve at h
  dsimp only at h
  split at h
  · cases h
  · simp only [Except.ok.injEq, Prod.mk.injEq] at h
    obtain ⟨_, h2, h3, _⟩ := h
    exact ⟨h3.symm.trans h2, h2.symm⟩

/-- Claim C5: on an index that already carries a signing-metadata entry,
`sign` can only succeed when the (rederived) script kind is MultiSig and
the supplied hash type and redeem script exactly equal the stored ones —
so any other repeated signing attempt fails; and on a matching MultiSig
entry, a key whose slot is already filled fails with the StateConflict
`'Signature already exists'`, while a key outside the authorized set
fails with the Authorization error, both leaving the builder unchanged.
The well-formedness hypotheses tie the stored entry's kind to its redeem
script / cached previous-output kind, as every entry created by the
builder's own operations satisfies. -/
theorem C5_thm (C : Collab) (b : TransactionBuilder) (index : Nat) (pk : PrivKey)
    (ht : Option Nat) (m : InputMeta)
    (hSlot : sigAt b.signatures index = some m)
    (hWfSome : ∀ r, m.redeemScript = some r → m.scriptType = C.classifyOutput r)
    (hWfNone : m.redeemScript = none →
      (mapLookup b.prevOutTypes index).getD .pubkeyhash = m.scriptType) :
    (∀ (rs : Option Script) (b'' : TransactionBuilder),
      TransactionBuilder.sign C b index pk rs ht = .ok b'' →
      m.scriptType = .multisig ∧ m.hashType = effHashType ht ∧ m.redeemScript = rs)
    ∧ (∀ r : Script, m.scriptType = .multisig → m.hashType = effHashType ht →
      m.redeemScript = some r →
      (mapLookup b.prevOutTypes index).getD .scripthash = .scripthash →
      index ≤ b.tx.ins.length →
      ((findKeyIdx m.pubKeys pk.pub = none →
        TransactionBuilder.sign C b index pk (some r) ht =
          .error ("privateKey cannot sign for this input", b))
      ∧ (∀ j, findKeyIdx m.pubKeys pk.pub = some j → slotFilled m.signatures j = true →
        TransactionBuilder.sign C b index pk (some r) ht =
          .error ("Signature already exists", b)))) := by
  constructor
  · intro rs b'' hOk
    unfold TransactionBuilder.sign at hOk
    split at hOk
    · cases hOk
    · dsimp only at hOk
      cases hres : signResolve C b index pk rs (effHashType ht) with
      | error m0 => rw [hres] at hOk; cases hOk
      | ok q =>
        obtain ⟨pos, pot, st, dg⟩ := q
        rw [hres] at hOk
        dsimp only at hOk
        rw [hSlot] at hOk
        dsimp only at hOk
        obtain ⟨hst, hht, hrs⟩ := signExisting_ok _ _ _ _ _ _ _ _ _ _ hOk
        refine ⟨?_, hht, hrs⟩
        cases rs with
        | some r =>
          obtain ⟨hst2, _⟩ := signResolve_some_ok _ _ _ _ _ _ _ _ _ _ hres
          rw [hWfSome r hrs, ← hst2, hst]
        | none =>
          obtain ⟨hst2, hpot2⟩ := signResolve_none_ok _ _ _ _ _ _ _ _ _ hres
          rw [← hWfNone hrs, ← hpot2, ← hst2, hst]
  · intro r hMS hHT hRS hPOT hBound
    have hcls : C.classifyOutput r = .multisig := (hWfSome r hRS).symm.trans hMS
    have hres : signResolve C b index pk (some r) (effHashType ht) =
        .ok ((mapLookup b.prevOutScripts index).getD (C.scriptHashOutput (C.getHash r)),
          .scripthash, .multisig,
          C.hashForSignature b.tx index r (effHashType ht)) := by
      unfold signResolve
      dsimp only
      rw [hPOT, hcls]
      simp
    constructor
    · intro hNone
      unfold TransactionBuilder.sign
      rw [if_neg (Nat.not_lt.mpr hBound)]
      dsimp only
      rw [hres]
      dsimp only
      rw [hSlot]
      dsimp only
      unfold signExisting
      simp [hHT, hRS, hNone]
    · intro j hJ hFill
      unfold TransactionBuilder.sign
      rw [if_neg (Nat.not_lt.mpr hBound)]
      dsimp only
      rw [hres]
      dsimp only
      rw [hSlot]
      dsimp only
      unfold signExisting
      simp [hHT, hRS, hJ, hFill]

/-- Claim C5 witness: on `sampleMS` (MultiSig entry over keys `[1, 2]`,
key 1's slot filled), an unauthorized key fails with the Authorization
error and re-signing with key 1 fails with `'Signature already exists'`,
both leaving the builder unchanged. -/
theorem C5_wit :
    TransactionBuilder.sign testC sampleMS 0 key5 (some redeemMS) (some 1) =
      .error ("privateKey cannot sign for this input", sampleMS)
    ∧ TransactionBuilder.sign testC sampleMS 0 key1 (some redeemMS) (some 1) =
      .error ("Signature already exists", sampleMS) :=
  ⟨((C5_thm testC sampleMS 0 key5 (some 1) sampleMetaMS rfl
      (fun r hr => by injection hr with hh; rw [← hh]; rfl)
      (fun hh => Option.noConfusion hh)).2
      redeemMS rfl rfl rfl rfl (by decide)).1 rfl,
   ((C5_thm testC sampleMS 0 key1 (some 1) sampleMetaMS rfl
      (fun r hr => by injection hr with hh; rw [← hh]; rfl)
      (fun hh => Option.noConfusion hh)).2
      redeemMS rfl rfl rfl rfl (by decide)).2 0 rfl rfl⟩

theorem extractByType_ok (C : Collab) (rs : Option Script) (scriptSig : Script)
    (scriptType : ScriptType) (m : InputMeta)
    (h : extractByType C rs scriptSig scriptType = .ok m) :
    m.scriptType = scriptType ∧ m.redeemScript = rs := by
  unfold extractByType at h
  dsimp only at h
  repeat' split at h
  all_goals
    first
    | (injection h with h'; rw [← h']; exact ⟨rfl, rfl⟩)
    | cases h

/-- Claim C7: on an input whose unlocking script classifies as
pay-to-script-hash, `extractSignature` takes the final push as the redeem
script and re-classifies the remaining chunks; a mismatch between the
redeem script's locking-script kind and that re-classification is a hard
error, and on a match the returned metadata carries exactly the inner
kind and the stripped redeem script. -/
theorem C7_thm (C : Collab) (txIn : TxIn)
    (hCb : txIn.hash.all (fun x => x = 0) = false)
    (hP2SH : C.classifyInput txIn.script = .scripthash)
    (c : Chunk) (hLast : txIn.script.chunks.getLast? = some c) :
    (C.classifyOutput (C.scriptFromBuffer c) ≠
        C.classifyInput (C.scriptFromChunks txIn.script.chunks.dropLast) →
      extractSignature C txIn = .error "Non-matching scriptSig and scriptPubKey in input")
    ∧ (∀ m, extractSignature C txIn = .ok m →
      m.scriptType = C.classifyInput (C.scriptFromChunks txIn.script.chunks.dropLast)
      ∧ m.redeemScript = some (C.scriptFromBuffer c)
      ∧ C.classifyOutput (C.scriptFromBuffer c) = m.scriptType) := by
  have hre : reclassify C txIn.script (C.classifyInput txIn.script) =
      (if C.classifyOutput (C.scriptFromBuffer c) ≠
          C.classifyInput (C.scriptFromChunks txIn.script.chunks.dropLast) then
        .error "Non-matching scriptSig and scriptPubKey in input"
      else .ok (some (C.scriptFromBuffer c),
        C.scriptFromChunks txIn.script.chunks.dropLast,
        C.classifyInput (C.scriptFromChunks txIn.script.chunks.dropLast))) := by
    unfold reclassify
    rw [hP2SH, hLast]
    simp
  constructor
  · intro hNe
    unfold extractSignature
    simp only [hCb, Bool.false_eq_true, if_false]
    rw [hre, if_pos hNe]
  · intro m hOk
    unfold extractSignature at hOk
    simp only [hCb, Bool.false_eq_true, if_false] at hOk
    rw [hre] at hOk
    by_cases hNe : C.classifyOutput (C.scriptFromBuffer c) ≠
        C.classifyInput (C.scriptFromChunks txIn.script.chunks.dropLast)
    · rw [if_pos hNe] at hOk; cases hOk
    · rw [if_neg hNe] at hOk
      dsimp only at hOk
      obtain ⟨h1, h2⟩ := extractByType_ok _ _ _ _ _ hOk
      exact ⟨h1, h2, (not_not.mp hNe).trans h1.symm⟩

/-- Claim C7 witness: a matched P2SH unlocking script extracts to the
inner multisig kind with the stripped redeem script, and a mismatched one
(redeem script classifying as pay-to-pubkey-hash over a multisig inner
script) is a hard error. -/
theorem C7_wit :
    (InputMeta.scriptType ⟨1, [1, 2], some redeemMS, .multisig, [some 7]⟩ =
      testC.classifyInput (testC.scriptFromChunks [Chunk.op 0, Chunk.buf [7, 1]])
    ∧ InputMeta.redeemScript ⟨1, [1, 2], some redeemMS, .multisig, [some 7]⟩ =
      some (testC.scriptFromBuffer (Chunk.buf [3]))
    ∧ testC.classifyOutput (testC.scriptFromBuffer (Chunk.buf [3])) =
      InputMeta.scriptType ⟨1, [1, 2], some redeemMS, .multisig, [some 7]⟩)
    ∧ extractSignature testC ⟨[5], 0, 0, ⟨[.op 0, .buf [7, 1], .buf [4]], [9]⟩⟩ =
      .error "Non-matching scriptSig and scriptPubKey in input" :=
  ⟨(C7_thm testC ⟨[5], 0, 0, ⟨[.op 0, .buf [7, 1], .buf [3]], [9]⟩⟩ rfl rfl
      (.buf [3]) rfl).2 ⟨1, [1, 2], some redeemMS, .multisig, [some 7]⟩ rfl,
   (C7_thm testC ⟨[5], 0, 0, ⟨[.op 0, .buf [7, 1], .buf [4]], [9]⟩⟩ rfl rfl
      (.buf [4]) rfl).1 (by decide)⟩

theorem findKeyIdx_head (a : PubKey) (rest : List PubKey) :
    findKeyIdx (a :: rest) a = some 0 := by
  simp [findKeyIdx, List.findIdx?_cons]

/-- Claim C3: the sign/build/extract round trip.  On a fresh builder with
one pay-to-pubkey-hash input (cached locking script `p`), one output, and
one `sign` call, `build()` succeeds and the Signature Extractor run on the
built input's unlocking script returns a metadata entry whose public-key
list is exactly the signing key's public key and whose signature list is
exactly the one signature the key produced over the resolved digest.
The hypotheses are the collaborator contracts of spec §6: the assembled
pay-to-pubkey-hash unlocking script is `[signature-push, key-push]` and
classifies as such, and the signature codec round-trips. -/
theorem C3_thm (C : Collab) (k : PrivKey) (h : Bytes) (pIdx seq : Nat) (p outS : Script)
    (v : Nat)
    (hL1 : ∀ s ht pk,
      C.classifyInput (C.pubKeyHashInput (C.toScriptSignature s ht) pk) = .pubkeyhash)
    (hL2 : ∀ s ht pk, ∃ c, (C.pubKeyHashInput (C.toScriptSignature s ht) pk).chunks =
      [C.toScriptSignature s ht, c] ∧ C.pubKeyFromBuffer c = pk)
    (hL3 : ∀ s ht, C.parseScriptSignature (C.toScriptSignature s ht) = some (s, ht))
    (hP : C.classifyOutput p = .pubkeyhash)
    (hCb : h.all (fun x => x = 0) = false) :
    p2pkhRound C k h pIdx seq p outS v =
      .ok ⟨SIGHASH_ALL, [k.pub], none, .pubkeyhash,
        [some (C.keySign k (C.hashForSignature ⟨[⟨h, pIdx, seq, emptyScript⟩],
          [⟨outS, v⟩]⟩ 0 p SIGHASH_ALL))]⟩ := by
  obtain ⟨c, hc1, hc2⟩ := hL2 (C.keySign k (C.hashForSignature ⟨[⟨h, pIdx, seq, emptyScript⟩],
    [⟨outS, v⟩]⟩ 0 p SIGHASH_ALL)) SIGHASH_ALL k.pub
  unfold p2pkhRound
  have h1 : TransactionBuilder.addInput C TransactionBuilder.empty (.rawHash h) pIdx seq
      (some p) = .ok (0, ⟨[(h, pIdx)], [(0, some p)], [(0, some ScriptType.pubkeyhash)], [],
        ⟨[⟨h, pIdx, seq, emptyScript⟩], []⟩⟩) := by
    unfold TransactionBuilder.addInput
    simp [resolveRef, classifyPrev, hP, everySig, TransactionBuilder.empty,
      Transaction.addIn, mapSet]
  rw [h1]
  dsimp only
  have h2 : TransactionBuilder.addOutput C
      (⟨[(h, pIdx)], [(0, some p)], [(0, some ScriptType.pubkeyhash)], [],
        ⟨[⟨h, pIdx, seq, emptyScript⟩], []⟩⟩ : TransactionBuilder) outS v =
      .ok (0, ⟨[(h, pIdx)], [(0, some p)], [(0, some ScriptType.pubkeyhash)], [],
        ⟨[⟨h, pIdx, seq, emptyScript⟩], [⟨outS, v⟩]⟩⟩) := by
    unfold TransactionBuilder.addOutput
    simp [everySig, Transaction.addOut]
  rw [h2]
  dsimp only
  have h3 : TransactionBuilder.sign C
      (⟨[(h, pIdx)], [(0, some p)], [(0, some ScriptType.pubkeyhash)], [],
        ⟨[⟨h, pIdx, seq, emptyScript⟩], [⟨outS, v⟩]⟩⟩ : TransactionBuilder) 0 k none none =
      .ok ⟨[(h, pIdx)], [(0, some p), (0, some p)],
        [(0, some ScriptType.pubkeyhash), (0, some ScriptType.pubkeyhash)],
        [.entry ⟨SIGHASH_ALL, [k.pub], none, .pubkeyhash,
          [some (C.keySign k (C.hashForSignature ⟨[⟨h, pIdx, seq, emptyScript⟩],
            [⟨outS, v⟩]⟩ 0 p SIGHASH_ALL))]⟩],
        ⟨[⟨h, pIdx, seq, emptyScript⟩], [⟨outS, v⟩]⟩⟩ := by
    unfold TransactionBuilder.sign
    have hres : signResolve C
        (⟨[(h, pIdx)], [(0, some p)], [(0, some ScriptType.pubkeyhash)], [],
          ⟨[⟨h, pIdx, seq, emptyScript⟩], [⟨outS, v⟩]⟩⟩ : TransactionBuilder) 0 k none
        (effHashType none) =
        .ok (p, .pubkeyhash, .pubkeyhash,
          C.hashForSignature ⟨[⟨h, pIdx, seq, emptyScript⟩], [⟨outS, v⟩]⟩ 0 p SIGHASH_ALL) := by
      unfold signResolve
      simp [mapLookup, effHashType]
    rw [if_neg (by simp)]
    dsimp only
    rw [hres]
    dsimp only [sigAt, List.get?]
    unfold signFresh
    dsimp only [freshPubKeys]
    rw [findKeyIdx_head]
    dsimp only [slotFilled, List.get?]
    simp [setPad, mapSet, effHashType]
  rw [h3]
  dsimp only
  have h4 : TransactionBuilder.build C
      (⟨[(h, pIdx)], [(0, some p), (0, some p)],
        [(0, some ScriptType.pubkeyhash), (0, some ScriptType.pubkeyhash)],
        [.entry ⟨SIGHASH_ALL, [k.pub], none, .pubkeyhash,
          [some (C.keySign k (C.hashForSignature ⟨[⟨h, pIdx, seq, emptyScript⟩],
            [⟨outS, v⟩]⟩ 0 p SIGHASH_ALL))]⟩],
        ⟨[⟨h, pIdx, seq, emptyScript⟩], [⟨outS, v⟩]⟩⟩ : TransactionBuilder) =
      .ok ⟨[⟨h, pIdx, seq,
        C.pubKeyHashInput (C.toScriptSignature
          (C.keySign k (C.hashForSignature ⟨[⟨h, pIdx, seq, emptyScript⟩],
            [⟨outS, v⟩]⟩ 0 p SIGHASH_ALL)) SIGHASH_ALL) k.pub⟩], [⟨outS, v⟩]⟩ := by
    unfold TransactionBuilder.build TransactionBuilder.buildShared
    simp [buildLoop, assembleInput, wrapRedeem, Transaction.setInScript, setScriptAt]
  rw [h4]
  dsimp only
  have h6 : extractSignature C ⟨h, pIdx, seq,
      C.pubKeyHashInput (C.toScriptSignature
        (C.keySign k (C.hashForSignature ⟨[⟨h, pIdx, seq, emptyScript⟩],
          [⟨outS, v⟩]⟩ 0 p SIGHASH_ALL)) SIGHASH_ALL) k.pub⟩ =
      .ok ⟨SIGHASH_ALL, [k.pub], none, .pubkeyhash,
        [some (C.keySign k (C.hashForSignature ⟨[⟨h, pIdx, seq, emptyScript⟩],
          [⟨outS, v⟩]⟩ 0 p SIGHASH_ALL))]⟩ := by
    unfold extractSignature
    simp only [hCb, Bool.false_eq_true, if_false]
    have hrc : reclassify C
        (C.pubKeyHashInput (C.toScriptSignature
          (C.keySign k (C.hashForSignature ⟨[⟨h, pIdx, seq, emptyScript⟩],
            [⟨outS, v⟩]⟩ 0 p SIGHASH_ALL)) SIGHASH_ALL) k.pub)
        (C.classifyInput (C.pubKeyHashInput (C.toScriptSignature
          (C.keySign k (C.hashForSignature ⟨[⟨h, pIdx, seq, emptyScript⟩],
            [⟨outS, v⟩]⟩ 0 p SIGHASH_ALL)) SIGHASH_ALL) k.pub)) =
        .ok (none,
          C.pubKeyHashInput (C.toScriptSignature
            (C.keySign k (C.hashForSignature ⟨[⟨h, pIdx, seq, emptyScript⟩],
              [⟨outS, v⟩]⟩ 0 p SIGHASH_ALL)) SIGHASH_ALL) k.pub,
          .pubkeyhash) := by
      unfold reclassify
      rw [hL1]
      simp
    rw [hrc]
    dsimp only
    unfold extractByType
    rw [hc1]
    simp [hL3, hc2]
  simp only [List.get?]
  exact h6

/-- Claim C3 witness: the round trip evaluated with the concrete
collaborator instance — the extracted metadata holds exactly key 1's
public key and its single signature. -/
theorem C3_wit :
    p2pkhRound testC key1 [8] 0 0 (pkhLock 1) (pkhLock 2) 5 =
      .ok ⟨SIGHASH_ALL, [key1.pub], none, .pubkeyhash,
        [some (testC.keySign key1 (testC.hashForSignature ⟨[⟨[8], 0, 0, emptyScript⟩],
          [⟨pkhLock 2, 5⟩]⟩ 0 (pkhLock 1) SIGHASH_ALL))]⟩ :=
  C3_thm testC key1 [8] 0 0 (pkhLock 1) (pkhLock 2) 5
    (fun _ _ _ => rfl)
    (fun s _ pk => ⟨.buf [pk], rfl, rfl⟩)
    (fun _ _ => rfl)
    rfl rfl

end TxB
